import Mathlib

/-!
Shallow embedding of the table-transformation core of src/app.py
(class CSVExcelModifier operating on pandas DataFrames), together with
proofs settling the specification claims about it.

Modelling conventions:
* A dataframe is a column-name list plus labelled rows.  pandas row
  labels (the RangeIndex) are modelled explicitly because df.drop
  removes rows by LABEL, concat(..., ignore_index=True) renumbers the
  labels, and boolean filtering keeps them.
* Cell values are ints, strings, booleans or null (NaN).  Comparisons
  follow pandas/numpy scalar semantics: NaN comparisons are false
  against numbers, `==` never raises and is false across incompatible
  types, `<` and the symmetric `>` raise TypeError across
  number/string, booleans compare as 1/0.
* Exceptions are Except values; the try/except wrapper of each method
  is the match on that value.  st.error messages are returned in an
  err field; the modifier's log list is passed and returned explicitly.
* Log details are recorded structurally (one constructor per action,
  carrying the data the python f-string interpolates), not as the
  formatted string.
-/

namespace App

/-- A scalar cell of the table: int, string, boolean or missing (NaN). -/
inductive Value where
  | vInt : Int → Value
  | vStr : String → Value
  | vBool : Bool → Value
  | vNull : Value
  deriving DecidableEq, Repr

/-- numpy's numeric view of a scalar: booleans count as 1/0. -/
def toNum : Value → Option Int
  | Value.vInt n => some n
  | Value.vBool b => some (if b then 1 else 0)
  | _ => none

/-- Scalar a > b with pandas semantics: TypeError across
string/non-string, NaN comparisons false, booleans numeric. -/
def valueGt : Value → Value → Except String Bool
  | Value.vStr s, Value.vStr t => Except.ok (t < s)
  | Value.vStr _, _ => Except.error "TypeError"
  | _, Value.vStr _ => Except.error "TypeError"
  | Value.vNull, _ => Except.ok false
  | _, Value.vNull => Except.ok false
  | a, b =>
      match toNum a, toNum b with
      | some x, some y => Except.ok (y < x)
      | _, _ => Except.error "TypeError"

/-- Scalar a < b, same conventions as valueGt. -/
def valueLt : Value → Value → Except String Bool
  | Value.vStr s, Value.vStr t => Except.ok (s < t)
  | Value.vStr _, _ => Except.error "TypeError"
  | _, Value.vStr _ => Except.error "TypeError"
  | Value.vNull, _ => Except.ok false
  | _, Value.vNull => Except.ok false
  | a, b =>
      match toNum a, toNum b with
      | some x, some y => Except.ok (x < y)
      | _, _ => Except.error "TypeError"

/-- Scalar ==: never raises, false across incompatible types and
against NaN. -/
def valueEq : Value → Value → Bool
  | Value.vNull, _ => false
  | _, Value.vNull => false
  | Value.vStr s, Value.vStr t => s == t
  | Value.vStr _, _ => false
  | _, Value.vStr _ => false
  | a, b =>
      match toNum a, toNum b with
      | some x, some y => x == y
      | _, _ => false

/-- A pandas DataFrame: ordered column names, and rows each carrying
their index label.  A row's cell list is in column order. -/
structure DataFrame where
  cols : List String
  rows : List (Nat × List Value)
  deriving DecidableEq, Repr

/-- One filter rule from the JSON rule list. -/
structure Rule where
  column : String
  condition : String
  value : Value
  deriving DecidableEq, Repr

/-- One row operation from the JSON operation list; row_data is the
payload of an "add" (an assoc list standing for the python dict, keys
unique), index the target of a "delete". -/
structure RowOp where
  action : String
  row_data : List (String × Value)
  index : Option Int
  deriving DecidableEq, Repr

/-- One audit log record; the python f-string details are kept
structurally (the data that the string interpolates). -/
inductive LogEntry where
  | removeDuplicates : Nat → LogEntry
  | applyRules : List Rule → Nat → LogEntry
  | addOrDeleteRows : List RowOp → Nat → LogEntry
  | removeEmptyRows : Nat → LogEntry
  | sortData : String → Bool → LogEntry
  | renameColumns : List (String × String) → LogEntry
  | fillMissingValues : String → LogEntry
  | createChart : String → String → Option String → LogEntry
  deriving DecidableEq, Repr

/-- Observable result of one modifier method: the returned dataframe,
the log list after the call, and the st.error message if one was
shown. -/
structure OpResult where
  df : DataFrame
  log : List LogEntry
  err : Option String
  deriving DecidableEq, Repr

/-- The shared for-loop shape of apply_rules and add_or_delete_rows:
the python local df is rebound at each successful step; an exception
stops the loop and hands back the CURRENT df, which is what the except
branch then returns. -/
def batchLoop (step : DataFrame → α → Except String DataFrame) :
    DataFrame → List α → DataFrame × Option String
  | df, [] => (df, none)
  | df, x :: xs =>
      match step df x with
      | Except.ok df2 => batchLoop step df2 xs
      | Except.error e => (df, some e)

/-- Evaluate the boolean mask of p over every row (cells of column j)
and keep the rows where it is true; a cell where the comparison raises
makes the whole filter raise, like the vectorised pandas comparison. -/
def filterRows (p : Value → Except String Bool) (j : Nat) :
    List (Nat × List Value) → Except String (List (Nat × List Value))
  | [] => Except.ok []
  | lr :: rs =>
      match p (lr.2.getD j Value.vNull) with
      | Except.error e => Except.error e
      | Except.ok b =>
          match filterRows p j rs with
          | Except.error e => Except.error e
          | Except.ok rest => Except.ok (if b then lr :: rest else rest)

/-- df[df[c] ...]: resolve the column first (KeyError when absent,
also on an empty frame), build the mask, filter.  Labels survive the
filtering. -/
def filterBy (df : DataFrame) (c : String) (p : Value → Except String Bool) :
    Except String DataFrame :=
  match df.cols.findIdx? (fun s => s == c) with
  | none => Except.error ("KeyError: " ++ c)
  | some j =>
      match filterRows p j df.rows with
      | Except.error e => Except.error e
      | Except.ok rs => Except.ok ⟨df.cols, rs⟩

/-- One iteration of the rule loop (app.py lines 27-34): three
recognised comparators; any other condition string matches no branch
and leaves df untouched. -/
def applyRuleStep (df : DataFrame) (r : Rule) : Except String DataFrame :=
  if r.condition = "greater_than" then
    filterBy df r.column (fun cell => valueGt cell r.value)
  else if r.condition = "less_than" then
    filterBy df r.column (fun cell => valueLt cell r.value)
  else if r.condition = "equals" then
    filterBy df r.column (fun cell => Except.ok (valueEq cell r.value))
  else
    Except.ok df

/-- CSVExcelModifier.apply_rules: run the loop; on success append the
log entry; on an exception report it and return the df the loop
stopped at (the partially filtered local, not the original input). -/
def apply_rules (df : DataFrame) (rules : List Rule) (log : List LogEntry) :
    OpResult :=
  match batchLoop applyRuleStep df rules with
  | (df2, none) => ⟨df2, log ++ [LogEntry.applyRules rules df2.rows.length], none⟩
  | (df2, some e) => ⟨df2, log, some ("Error applying rules: " ++ e)⟩

/-- pd.concat([df, pd.DataFrame([row_data])], ignore_index=True):
column union (keys not already present are appended after the existing
columns), nulls where one side lacks a column, labels renumbered
0..n. -/
def addRow (df : DataFrame) (rd : List (String × Value)) : DataFrame :=
  let newCols := (rd.map Prod.fst).filter (fun c => !(df.cols.contains c))
  let pad := newCols.map (fun _ => Value.vNull)
  let newRow := (df.cols ++ newCols).map (fun c =>
    match rd.lookup c with
    | some v => v
    | none => Value.vNull)
  let rows := df.rows.map (fun lr => lr.2 ++ pad) ++ [newRow]
  ⟨df.cols ++ newCols, (List.range rows.length).zip rows⟩

/-- One iteration of the operation loop (app.py lines 47-54).  "delete"
checks the POSITIONAL bound 0 <= index < len(df) but then calls
df.drop(index), which removes rows by LABEL and raises KeyError when no
row carries that label.  An absent or out-of-range index is silently
skipped, as is any unrecognised action string. -/
def opStep (df : DataFrame) (op : RowOp) : Except String DataFrame :=
  if op.action = "add" then
    Except.ok (addRow df op.row_data)
  else if op.action = "delete" then
    match op.index with
    | none => Except.ok df
    | some i =>
        if 0 ≤ i ∧ i < (df.rows.length : Int) then
          if (df.rows.map Prod.fst).contains i.toNat then
            Except.ok ⟨df.cols, df.rows.filter (fun lr => lr.1 != i.toNat)⟩
          else
            Except.error "KeyError: label not found"
        else
          Except.ok df
  else
    Except.ok df

/-- CSVExcelModifier.add_or_delete_rows: same loop-and-catch shape as
apply_rules. -/
def add_or_delete_rows (df : DataFrame) (ops : List RowOp) (log : List LogEntry) :
    OpResult :=
  match batchLoop opStep df ops with
  | (df2, none) => ⟨df2, log ++ [LogEntry.addOrDeleteRows ops df2.rows.length], none⟩
  | (df2, some e) => ⟨df2, log, some ("Error performing operations: " ++ e)⟩

/-- drop_duplicates walk: keep a row when its VALUE list was not seen
on an earlier kept row (keep="first"); labels are preserved. -/
def dedupAux (seen : List (List Value)) :
    List (Nat × List Value) → List (Nat × List Value)
  | [] => []
  | lr :: rs =>
      if seen.contains lr.2 then dedupAux seen rs
      else lr :: dedupAux (lr.2 :: seen) rs

/-- CSVExcelModifier.remove_duplicates. -/
def remove_duplicates (df : DataFrame) (log : List LogEntry) : OpResult :=
  let cleaned : DataFrame := ⟨df.cols, dedupAux [] df.rows⟩
  ⟨cleaned,
   log ++ [LogEntry.removeDuplicates (df.rows.length - cleaned.rows.length)],
   none⟩

/-- One forward-fill step: a null cell takes the carried value of its
column, a non-null cell becomes the new carry of its column.  The new
carry list equals the filled row. -/
def ffillStep (carry row : List Value) : List Value :=
  List.zipWith (fun c v => if v = Value.vNull then c else v) carry row

def ffillRows (carry : List Value) :
    List (Nat × List Value) → List (Nat × List Value)
  | [] => []
  | lr :: rs =>
      let r2 := ffillStep carry lr.2
      (lr.1, r2) :: ffillRows r2 rs

/-- df.fillna(method="ffill"): per column, every null takes the nearest
preceding non-null value of that column. -/
def ffillDF (df : DataFrame) : DataFrame :=
  ⟨df.cols, ffillRows (df.cols.map (fun _ => Value.vNull)) df.rows⟩

/-- df.fillna(method="bfill") is forward fill run bottom-up. -/
def bfillDF (df : DataFrame) : DataFrame :=
  ⟨df.cols, (ffillRows (df.cols.map (fun _ => Value.vNull)) df.rows.reverse).reverse⟩

/-- df.fillna(value): every null becomes the literal. -/
def fillWithValue (df : DataFrame) (v : Value) : DataFrame :=
  ⟨df.cols, df.rows.map (fun lr =>
    (lr.1, lr.2.map (fun c => if c = Value.vNull then v else c)))⟩

/-- CSVExcelModifier.fill_missing_values: the dispatch of app.py lines
102-109 ("value" requires a non-None value, everything else falls to
the silent no-op else branch) followed by the unconditional log
append; the body cannot raise. -/
def fill_missing_values (df : DataFrame) (method : String)
    (value : Option Value) (log : List LogEntry) : OpResult :=
  let df_filled :=
    if method = "ffill" then ffillDF df
    else if method = "bfill" then bfillDF df
    else
      match value with
      | some v => if method = "value" then fillWithValue df v else df
      | none => df
  ⟨df_filled, log ++ [LogEntry.fillMissingValues method], none⟩

/-- The st.error text of create_chart's else branch. -/
def chartInvalidMsg : String :=
  "Invalid chart type or missing column(s). Please check your inputs."

/-- Column access df[c] inside the chart branches. -/
def getColumn (df : DataFrame) (c : String) : Except String Unit :=
  if df.cols.contains c then Except.ok ()
  else Except.error ("KeyError: " ++ c)

/-- The try body of create_chart (branch dispatch of app.py lines
124-146).  Result on normal exit: (the st.error message shown by the
else branch if it ran, whether a chart was drawn); the column accesses
of the drawing branches can raise. -/
def createChartTry (df : DataFrame) (chartType xcol : String)
    (ycol : Option String) : Except String (Option String × Bool) :=
  if chartType = "Bar Chart" then
    match ycol with
    | some yc =>
        match getColumn df xcol with
        | Except.error e => Except.error e
        | Except.ok _ =>
            match getColumn df yc with
            | Except.error e => Except.error e
            | Except.ok _ => Except.ok (none, true)
    | none =>
        match getColumn df xcol with
        | Except.error e => Except.error e
        | Except.ok _ => Except.ok (none, true)
  else if chartType = "Line Chart" then
    match ycol with
    | some yc =>
        match getColumn df xcol with
        | Except.error e => Except.error e
        | Except.ok _ =>
            match getColumn df yc with
            | Except.error e => Except.error e
            | Except.ok _ => Except.ok (none, true)
    | none => Except.ok (some chartInvalidMsg, false)
  else if chartType = "Pie Chart" then
    match getColumn df xcol with
    | Except.error e => Except.error e
    | Except.ok _ => Except.ok (none, true)
  else Except.ok (some chartInvalidMsg, false)

/-- CSVExcelModifier.create_chart: on a normal branch exit the log
entry is appended AFTER the conditional (so also when the else branch
only showed an error); an exception jumps to except and skips the log
append.  Returns (log after the call, st.error message if any, whether
a chart was drawn). -/
def create_chart (df : DataFrame) (chartType xcol : String)
    (ycol : Option String) (log : List LogEntry) :
    List LogEntry × Option String × Bool :=
  match createChartTry df chartType xcol ycol with
  | Except.ok p => (log ++ [LogEntry.createChart chartType xcol ycol], p.1, p.2)
  | Except.error e => (log, some ("Error creating chart: " ++ e), false)

/-- The comparison a rule demands of a cell (spec side, used to state
rule satisfaction; an unrecognised condition demands nothing). -/
def condTest (cond : String) (cell v : Value) : Except String Bool :=
  if cond = "greater_than" then valueGt cell v
  else if cond = "less_than" then valueLt cell v
  else if cond = "equals" then Except.ok (valueEq cell v)
  else Except.ok true

def isOkTrue : Except String Bool → Bool
  | Except.ok true => true
  | _ => false

/-- A row satisfies a rule when the rule's comparison on the row's cell
in the rule's column evaluates to true (vacuously when the column is
absent or the condition unrecognised). -/
def ruleSatB (cols : List String) (row : List Value) (r : Rule) : Bool :=
  match cols.findIdx? (fun s => s == r.column) with
  | some j => isOkTrue (condTest r.condition (row.getD j Value.vNull) r.value)
  | none => true

/-- Modelled from the words of claim C4: a "delete" removes the row at
the given POSITION of the table as it exists when the operation runs,
silently skipping absent or out-of-range indices.  (Spec-side
definition, for comparison with the source's label-based drop.) -/
def positionalDeletes (rows : List (List Value)) (ops : List RowOp) :
    List (List Value) :=
  ops.foldl (fun rs op =>
    if op.action = "delete" then
      match op.index with
      | some i =>
          if 0 ≤ i ∧ i < (rs.length : Int) then rs.eraseIdx i.toNat else rs
      | none => rs
    else rs) rows

/-- Cell of row i, column j (null when out of range). -/
def cellAt (df : DataFrame) (i j : Nat) : Value :=
  ((df.rows.getD i (0, [])).2).getD j Value.vNull

/-- Last non-null of a list, starting from a default. -/
def lastNN (init : Value) (xs : List Value) : Value :=
  xs.foldl (fun acc v => if v = Value.vNull then acc else v) init

/-- The value forward fill should leave at row i, column j: the nearest
preceding non-null cell of column j, null when there is none. -/
def ffillExpected (df : DataFrame) (i j : Nat) : Value :=
  lastNN Value.vNull ((df.rows.take i).map (fun lr => lr.2.getD j Value.vNull))

/-! ## Lemmas about the deduplication walk -/

theorem dedupAux_idem : ∀ (l : List (Nat × List Value)) (seen : List (List Value)),
    dedupAux seen (dedupAux seen l) = dedupAux seen l := by
  intro l
  induction l with
  | nil => intro seen; rfl
  | cons lr rs ih =>
      intro seen
      by_cases h : seen.contains lr.2
      · simp only [dedupAux, h, if_true]
        exact ih seen
      · simp only [dedupAux, h, if_false, Bool.false_eq_true]
        rw [ih (lr.2 :: seen)]

/-- C5 (confirmed): remove_duplicates is idempotent — running it again on
its own output returns the very same dataframe (columns, rows, labels),
and the second call logs that 0 duplicate rows were removed. -/
theorem remove_duplicates_idempotent (df : DataFrame) (log log2 : List LogEntry) :
    (remove_duplicates (remove_duplicates df log).df log2).df
      = (remove_duplicates df log).df ∧
    (remove_duplicates (remove_duplicates df log).df log2).log
      = log2 ++ [LogEntry.removeDuplicates 0] := by
  constructor
  · simp [remove_duplicates, dedupAux_idem]
  · simp [remove_duplicates, dedupAux_idem]

/-! ## fill_missing_values: the silent no-op branch -/

/-- C7 (confirmed): with method "value" but no value, or with an
unrecognised method, fill_missing_values returns the table unchanged and
neither raises nor reports any error. -/
theorem fill_missing_values_noop (df : DataFrame) (method : String)
    (value : Option Value) (log : List LogEntry)
    (h : (method = "value" ∧ value = none) ∨
         (method ≠ "ffill" ∧ method ≠ "bfill" ∧ method ≠ "value")) :
    (fill_missing_values df method value log).df = df ∧
    (fill_missing_values df method value log).err = none := by
  unfold fill_missing_values
  rcases h with ⟨hm, hv⟩ | ⟨h1, h2, h3⟩
  · subst hm; subst hv; simp
  · cases value with
    | none => simp [h1, h2, h3]
    | some v => simp [h1, h2, h3]

/-- Witness for C7 at a concrete unrecognised method. -/
theorem fill_missing_values_noop_witness :
    (("median" = "value" ∧ (none : Option Value) = none) ∨
      ("median" ≠ "ffill" ∧ "median" ≠ "bfill" ∧ "median" ≠ "value")) ∧
    ((fill_missing_values ⟨["A"], [(0, [Value.vNull])]⟩ "median" none []).df
        = ⟨["A"], [(0, [Value.vNull])]⟩ ∧
     (fill_missing_values ⟨["A"], [(0, [Value.vNull])]⟩ "median" none []).err
        = none) :=
  ⟨Or.inr ⟨by decide, by decide, by decide⟩,
   fill_missing_values_noop ⟨["A"], [(0, [Value.vNull])]⟩ "median" none []
     (Or.inr ⟨by decide, by decide, by decide⟩)⟩

/-- C10 (confirmed): on the silent no-op branch the log entry is still
appended, and its details say missing values were filled using that
method even though the table is unchanged. -/
theorem fill_missing_values_noop_logs (df : DataFrame) (method : String)
    (value : Option Value) (log : List LogEntry)
    (h : (method = "value" ∧ value = none) ∨
         (method ≠ "ffill" ∧ method ≠ "bfill" ∧ method ≠ "value")) :
    (fill_missing_values df method value log).log
      = log ++ [LogEntry.fillMissingValues method] ∧
    (fill_missing_values df method value log).df = df := by
  refine ⟨rfl, ?_⟩
  unfold fill_missing_values
  rcases h with ⟨hm, hv⟩ | ⟨h1, h2, h3⟩
  · subst hm; subst hv; simp
  · cases value with
    | none => simp [h1, h2, h3]
    | some v => simp [h1, h2, h3]

/-! ## apply_rules: unrecognised conditions are skipped -/

theorem applyRuleStep_skip (df : DataFrame) (r : Rule)
    (h1 : r.condition ≠ "greater_than") (h2 : r.condition ≠ "less_than")
    (h3 : r.condition ≠ "equals") : applyRuleStep df r = Except.ok df := by
  simp [applyRuleStep, h1, h2, h3]

theorem batchLoop_skip_middle (r : Rule)
    (h1 : r.condition ≠ "greater_than") (h2 : r.condition ≠ "less_than")
    (h3 : r.condition ≠ "equals") :
    ∀ (R1 : List Rule) (df : DataFrame) (R2 : List Rule),
      batchLoop applyRuleStep df (R1 ++ r :: R2)
        = batchLoop applyRuleStep df (R1 ++ R2) := by
  intro R1
  induction R1 with
  | nil =>
      intro df R2
      simp only [List.nil_append, batchLoop, applyRuleStep_skip df r h1 h2 h3]
  | cons x xs ih =>
      intro df R2
      simp only [List.cons_append, batchLoop]
      cases applyRuleStep df x with
      | ok df2 => exact ih df2 R2
      | error e => rfl

/-- C9 (confirmed): a rule whose condition string is none of
greater_than / less_than / equals is silently skipped by apply_rules:
dropping it from the rule list changes neither the resulting table nor
the error outcome, and a call consisting of such a rule alone completes
successfully with the table untouched and the success log entry
appended. -/
theorem apply_rules_unknown_condition_skipped (df : DataFrame)
    (log : List LogEntry) (R1 R2 : List Rule) (r : Rule)
    (h1 : r.condition ≠ "greater_than") (h2 : r.condition ≠ "less_than")
    (h3 : r.condition ≠ "equals") :
    batchLoop applyRuleStep df (R1 ++ r :: R2)
      = batchLoop applyRuleStep df (R1 ++ R2) ∧
    apply_rules df [r] log
      = ⟨df, log ++ [LogEntry.applyRules [r] df.rows.length], none⟩ := by
  constructor
  · exact batchLoop_skip_middle r h1 h2 h3 R1 df R2
  · simp [apply_rules, batchLoop, applyRuleStep_skip df r h1 h2 h3]

/-- Witness for C9 at a concrete table and an "is_even" condition. -/
theorem apply_rules_unknown_condition_skipped_witness :
    (("is_even" : String) ≠ "greater_than" ∧ ("is_even" : String) ≠ "less_than"
      ∧ ("is_even" : String) ≠ "equals") ∧
    (batchLoop applyRuleStep ⟨["A"], [(0, [Value.vInt 5])]⟩
        ([] ++ ⟨"A", "is_even", Value.vInt 0⟩ :: [])
      = batchLoop applyRuleStep ⟨["A"], [(0, [Value.vInt 5])]⟩ ([] ++ []) ∧
     apply_rules ⟨["A"], [(0, [Value.vInt 5])]⟩ [⟨"A", "is_even", Value.vInt 0⟩] []
      = ⟨⟨["A"], [(0, [Value.vInt 5])]⟩,
         [] ++ [LogEntry.applyRules [⟨"A", "is_even", Value.vInt 0⟩] 1],
         none⟩) :=
  ⟨⟨by decide, by decide, by decide⟩,
   apply_rules_unknown_condition_skipped ⟨["A"], [(0, [Value.vInt 5])]⟩ [] [] []
     ⟨"A", "is_even", Value.vInt 0⟩ (by decide) (by decide) (by decide)⟩

/-! ## create_chart logging -/

/-- C8 (corrected): whenever the try body of create_chart exits
normally, exactly one log entry is appended — in particular on the
invalid-combination else branch (unrecognised chart_type, or Line Chart
without y_column), which reports the error message, draws nothing, and
still logs.  (The claim as stated also covered requests whose drawing
branch raises, e.g. a missing x column: there the except branch skips
the log append, see the counterexample.) -/
theorem create_chart_logs_on_normal_exit (df : DataFrame)
    (chartType xcol : String) (ycol : Option String) (log : List LogEntry) :
    (∀ p, createChartTry df chartType xcol ycol = Except.ok p →
      create_chart df chartType xcol ycol log
        = (log ++ [LogEntry.createChart chartType xcol ycol], p.1, p.2)) ∧
    (chartType ≠ "Bar Chart" → chartType ≠ "Pie Chart" →
      (chartType = "Line Chart" → ycol = none) →
      createChartTry df chartType xcol ycol
        = Except.ok (some chartInvalidMsg, false)) := by
  constructor
  · intro p hp
    simp [create_chart, hp]
  · intro hbar hpie hline
    by_cases hl : chartType = "Line Chart"
    · have hy := hline hl
      subst hy
      simp [createChartTry, hbar, hl]
    · simp [createChartTry, hbar, hpie, hl]

/-- Witness for C8's amended statement: an unrecognised chart type on a
concrete table appends exactly the one log entry while reporting the
invalid-input error and drawing nothing. -/
theorem create_chart_logs_on_normal_exit_witness :
    create_chart ⟨["A"], [(0, [Value.vInt 1])]⟩ "Histogram" "A" none []
      = ([] ++ [LogEntry.createChart "Histogram" "A" none],
         some chartInvalidMsg, false) :=
  (create_chart_logs_on_normal_exit ⟨["A"], [(0, [Value.vInt 1])]⟩
      "Histogram" "A" none []).1 (some chartInvalidMsg, false)
    ((create_chart_logs_on_normal_exit ⟨["A"], [(0, [Value.vInt 1])]⟩
        "Histogram" "A" none []).2 (by decide) (by decide) (fun _ => rfl))

/-- Counterexample to C8 as stated: a Bar Chart request naming a column
absent from the table raises inside the try body, the except branch
runs, and NO log entry is appended — the claim of exactly one entry on
every request fails here. -/
theorem create_chart_exception_skips_log_cex :
    (create_chart ⟨["A"], [(0, [Value.vInt 1])]⟩ "Bar Chart" "Z" none []).1 = []
    ∧ (create_chart ⟨["A"], [(0, [Value.vInt 1])]⟩ "Bar Chart" "Z" none []).1.length
        ≠ 1 := by
  constructor
  · rfl
  · decide

/-- Witness for C10: method "value" without a value on a table that does
contain nulls — nothing is filled, yet the entry is appended. -/
theorem fill_missing_values_noop_logs_witness :
    (("value" = "value" ∧ (none : Option Value) = none) ∨
      ("value" ≠ "ffill" ∧ "value" ≠ "bfill" ∧ "value" ≠ "value")) ∧
    ((fill_missing_values ⟨["A"], [(0, [Value.vNull])]⟩ "value" none []).log
        = [] ++ [LogEntry.fillMissingValues "value"] ∧
     (fill_missing_values ⟨["A"], [(0, [Value.vNull])]⟩ "value" none []).df
        = ⟨["A"], [(0, [Value.vNull])]⟩) :=
  ⟨Or.inl ⟨rfl, rfl⟩,
   fill_missing_values_noop_logs ⟨["A"], [(0, [Value.vNull])]⟩ "value" none []
     (Or.inl ⟨rfl, rfl⟩)⟩

/-! ## C1: what the except branches actually return -/

theorem batchLoop_error_append (step : DataFrame → α → Except String DataFrame) :
    ∀ (L1 : List α) (df : DataFrame) (x : α) (L2 : List α) (e : String),
      (batchLoop step df L1).2 = none →
      step (batchLoop step df L1).1 x = Except.error e →
      batchLoop step df (L1 ++ x :: L2) = ((batchLoop step df L1).1, some e) := by
  intro L1
  induction L1 with
  | nil =>
      intro df x L2 e _ hstep
      simp only [batchLoop] at hstep
      simp only [List.nil_append, batchLoop, hstep]
  | cons y ys ih =>
      intro df x L2 e hok hstep
      simp only [List.cons_append, batchLoop]
      cases hy : step df y with
      | ok df2 =>
          simp only [batchLoop, hy] at hok hstep
          exact ih df2 x L2 e hok hstep
      | error e2 =>
          simp only [batchLoop, hy] at hok
          exact absurd hok (Option.some_ne_none e2)

/-- C1 (corrected): when a rule or operation raises mid-batch, the
python except branch returns the loop local df, i.e. the table as
already modified by the earlier successfully executed rules/operations
of that call — NOT the original input (the original comes back only
when the failing step is the first one to touch the table).  The log
entry is not appended. -/
theorem error_returns_partial_batch (df : DataFrame)
    (R1 R2 : List Rule) (r : Rule) (O1 O2 : List RowOp) (o : RowOp)
    (log : List LogEntry) (e1 e2 : String)
    (h1 : (batchLoop applyRuleStep df R1).2 = none)
    (h2 : applyRuleStep (batchLoop applyRuleStep df R1).1 r = Except.error e1)
    (h3 : (batchLoop opStep df O1).2 = none)
    (h4 : opStep (batchLoop opStep df O1).1 o = Except.error e2) :
    apply_rules df (R1 ++ r :: R2) log
      = ⟨(batchLoop applyRuleStep df R1).1, log,
         some ("Error applying rules: " ++ e1)⟩ ∧
    add_or_delete_rows df (O1 ++ o :: O2) log
      = ⟨(batchLoop opStep df O1).1, log,
         some ("Error performing operations: " ++ e2)⟩ := by
  constructor
  · rw [apply_rules, batchLoop_error_append applyRuleStep R1 df r R2 e1 h1 h2]
  · rw [add_or_delete_rows, batchLoop_error_append opStep O1 df o O2 e2 h3 h4]

/-- Witness for C1's corrected statement: a first rule that filters
followed by a rule on a missing column, and a first delete followed by a
delete whose label was already dropped. -/
theorem error_returns_partial_batch_witness :
    ((batchLoop applyRuleStep ⟨["A"], [(0, [Value.vInt 5]), (1, [Value.vInt 15])]⟩
        [⟨"A", "greater_than", Value.vInt 10⟩]).2 = none ∧
     applyRuleStep (batchLoop applyRuleStep
        ⟨["A"], [(0, [Value.vInt 5]), (1, [Value.vInt 15])]⟩
        [⟨"A", "greater_than", Value.vInt 10⟩]).1 ⟨"B", "greater_than", Value.vInt 0⟩
       = Except.error "KeyError: B" ∧
     (batchLoop opStep ⟨["A"], [(0, [Value.vInt 5]), (1, [Value.vInt 15])]⟩
        [⟨"delete", [], some 0⟩]).2 = none ∧
     opStep (batchLoop opStep ⟨["A"], [(0, [Value.vInt 5]), (1, [Value.vInt 15])]⟩
        [⟨"delete", [], some 0⟩]).1 ⟨"delete", [], some 0⟩
       = Except.error "KeyError: label not found") ∧
    (apply_rules ⟨["A"], [(0, [Value.vInt 5]), (1, [Value.vInt 15])]⟩
        ([⟨"A", "greater_than", Value.vInt 10⟩] ++ ⟨"B", "greater_than", Value.vInt 0⟩ :: []) []
      = ⟨(batchLoop applyRuleStep ⟨["A"], [(0, [Value.vInt 5]), (1, [Value.vInt 15])]⟩
           [⟨"A", "greater_than", Value.vInt 10⟩]).1, [],
         some ("Error applying rules: " ++ "KeyError: B")⟩ ∧
     add_or_delete_rows ⟨["A"], [(0, [Value.vInt 5]), (1, [Value.vInt 15])]⟩
        ([⟨"delete", [], some 0⟩] ++ ⟨"delete", [], some 0⟩ :: []) []
      = ⟨(batchLoop opStep ⟨["A"], [(0, [Value.vInt 5]), (1, [Value.vInt 15])]⟩
           [⟨"delete", [], some 0⟩]).1, [],
         some ("Error performing operations: " ++ "KeyError: label not found")⟩) :=
  ⟨⟨rfl, rfl, rfl, rfl⟩,
   error_returns_partial_batch ⟨["A"], [(0, [Value.vInt 5]), (1, [Value.vInt 15])]⟩
     [⟨"A", "greater_than", Value.vInt 10⟩] [] ⟨"B", "greater_than", Value.vInt 0⟩
     [⟨"delete", [], some 0⟩] [] ⟨"delete", [], some 0⟩ [] "KeyError: B"
     "KeyError: label not found" rfl rfl rfl rfl⟩

/-- Counterexample to C1 as stated: in both apply_rules and
add_or_delete_rows an error is reported, yet the returned table differs
from the input table — partial filtering and a partially applied batch
are retained. -/
theorem error_returns_partial_batch_cex :
    ((apply_rules ⟨["A"], [(0, [Value.vInt 5]), (1, [Value.vInt 15])]⟩
        [⟨"A", "greater_than", Value.vInt 10⟩, ⟨"B", "greater_than", Value.vInt 0⟩]
        []).err.isSome = true ∧
     (apply_rules ⟨["A"], [(0, [Value.vInt 5]), (1, [Value.vInt 15])]⟩
        [⟨"A", "greater_than", Value.vInt 10⟩, ⟨"B", "greater_than", Value.vInt 0⟩]
        []).df ≠ ⟨["A"], [(0, [Value.vInt 5]), (1, [Value.vInt 15])]⟩) ∧
    ((add_or_delete_rows ⟨["A"], [(0, [Value.vInt 1]), (1, [Value.vInt 2]), (2, [Value.vInt 3])]⟩
        [⟨"delete", [], some 1⟩, ⟨"delete", [], some 1⟩] []).err.isSome = true ∧
     (add_or_delete_rows ⟨["A"], [(0, [Value.vInt 1]), (1, [Value.vInt 2]), (2, [Value.vInt 3])]⟩
        [⟨"delete", [], some 1⟩, ⟨"delete", [], some 1⟩] []).df
       ≠ ⟨["A"], [(0, [Value.vInt 1]), (1, [Value.vInt 2]), (2, [Value.vInt 3])]⟩) := by
  constructor
  · exact ⟨rfl, by decide⟩
  · exact ⟨rfl, by decide⟩

/-! ## C2: rows surviving apply_rules satisfy the rules -/

theorem filterRows_ok (p : Value → Except String Bool) (j : Nat) :
    ∀ (rows out : List (Nat × List Value)), filterRows p j rows = Except.ok out →
      ∀ lr ∈ out, lr ∈ rows ∧ p (lr.2.getD j Value.vNull) = Except.ok true := by
  intro rows
  induction rows with
  | nil =>
      intro out h lr hm
      simp only [filterRows] at h
      cases h
      simp at hm
  | cons hd tl ih =>
      intro out h lr hm
      simp only [filterRows] at h
      cases hp : p (hd.2.getD j Value.vNull) with
      | error e => rw [hp] at h; exact (Except.noConfusion h)
      | ok b =>
          rw [hp] at h
          cases hrec : filterRows p j tl with
          | error e => rw [hrec] at h; exact (Except.noConfusion h)
          | ok rest =>
              rw [hrec] at h
              injection h with h2
              subst h2
              cases b with
              | true =>
                  simp only [if_true] at hm
                  rcases List.mem_cons.mp hm with h1 | h1
                  · subst h1; exact ⟨List.mem_cons_self _ _, hp⟩
                  · obtain ⟨ha, hb⟩ := ih rest hrec lr h1
                    exact ⟨List.mem_cons_of_mem _ ha, hb⟩
              | false =>
                  simp only [Bool.false_eq_true, if_false] at hm
                  obtain ⟨ha, hb⟩ := ih rest hrec lr hm
                  exact ⟨List.mem_cons_of_mem _ ha, hb⟩

theorem filterBy_ok (df df2 : DataFrame) (c : String)
    (p : Value → Except String Bool) (h : filterBy df c p = Except.ok df2) :
    df2.cols = df.cols ∧ ∃ j, df.cols.findIdx? (fun s => s == c) = some j ∧
      ∀ lr ∈ df2.rows, lr ∈ df.rows ∧ p (lr.2.getD j Value.vNull) = Except.ok true := by
  unfold filterBy at h
  split at h
  · exact (Except.noConfusion h)
  · next j hidx =>
      split at h
      · exact (Except.noConfusion h)
      · next rs hrows =>
          injection h with h2
          subst h2
          exact ⟨rfl, j, hidx, fun lr hm => filterRows_ok p j df.rows rs hrows lr hm⟩

theorem ruleSatB_of_test (cols : List String) (row : List Value) (r : Rule)
    (j : Nat) (hj : cols.findIdx? (fun s => s == r.column) = some j)
    (ht : condTest r.condition (row.getD j Value.vNull) r.value = Except.ok true) :
    ruleSatB cols row r = true := by
  unfold ruleSatB
  split
  · next j2 hj2 =>
      rw [hj2] at hj
      injection hj with hjj
      subst hjj
      rw [ht]
      rfl
  · rfl

theorem applyRuleStep_ok (df df2 : DataFrame) (r : Rule)
    (h : applyRuleStep df r = Except.ok df2) :
    df2.cols = df.cols ∧
      ∀ lr ∈ df2.rows, lr ∈ df.rows ∧ ruleSatB df.cols lr.2 r = true := by
  by_cases h1 : r.condition = "greater_than"
  · rw [applyRuleStep, if_pos h1] at h
    obtain ⟨hc, j, hj, hall⟩ := filterBy_ok df df2 r.column _ h
    refine ⟨hc, fun lr hm => ?_⟩
    obtain ⟨hmem, hp⟩ := hall lr hm
    exact ⟨hmem, ruleSatB_of_test df.cols lr.2 r j hj
      (by simpa [condTest, h1] using hp)⟩
  · by_cases h2 : r.condition = "less_than"
    · rw [applyRuleStep, if_neg h1, if_pos h2] at h
      obtain ⟨hc, j, hj, hall⟩ := filterBy_ok df df2 r.column _ h
      refine ⟨hc, fun lr hm => ?_⟩
      obtain ⟨hmem, hp⟩ := hall lr hm
      exact ⟨hmem, ruleSatB_of_test df.cols lr.2 r j hj
        (by simpa [condTest, h1, h2] using hp)⟩
    · by_cases h3 : r.condition = "equals"
      · rw [applyRuleStep, if_neg h1, if_neg h2, if_pos h3] at h
        obtain ⟨hc, j, hj, hall⟩ := filterBy_ok df df2 r.column _ h
        refine ⟨hc, fun lr hm => ?_⟩
        obtain ⟨hmem, hp⟩ := hall lr hm
        exact ⟨hmem, ruleSatB_of_test df.cols lr.2 r j hj
          (by simpa [condTest, h1, h2, h3] using hp)⟩
      · rw [applyRuleStep, if_neg h1, if_neg h2, if_neg h3] at h
        injection h with h4
        subst h4
        refine ⟨rfl, fun lr hm => ⟨hm, ?_⟩⟩
        cases hidx : df.cols.findIdx? (fun s => s == r.column) with
        | none => simp [ruleSatB, hidx]
        | some j => simp [ruleSatB, hidx, condTest, h1, h2, h3, isOkTrue]

theorem batchLoop_rules_ok :
    ∀ (rules : List Rule) (df df2 : DataFrame),
      batchLoop applyRuleStep df rules = (df2, none) →
      df2.cols = df.cols ∧
        ∀ lr ∈ df2.rows, lr ∈ df.rows ∧
          ∀ r ∈ rules, ruleSatB df.cols lr.2 r = true := by
  intro rules
  induction rules with
  | nil =>
      intro df df2 h
      simp only [batchLoop] at h
      injection h with ha hb
      subst ha
      exact ⟨rfl, fun lr hm => ⟨hm, fun r hr => absurd hr (List.not_mem_nil r)⟩⟩
  | cons r rs ih =>
      intro df df2 h
      simp only [batchLoop] at h
      cases hstep : applyRuleStep df r with
      | error e =>
          rw [hstep] at h
          injection h with h1 h2
          exact (Option.noConfusion h2)
      | ok dfm =>
          rw [hstep] at h
          obtain ⟨hc1, hall1⟩ := applyRuleStep_ok df dfm r hstep
          obtain ⟨hc2, hall2⟩ := ih dfm df2 h
          refine ⟨hc2.trans hc1, fun lr hm => ?_⟩
          obtain ⟨hmem2, hsat2⟩ := hall2 lr hm
          obtain ⟨hmem1, hsat1⟩ := hall1 lr hmem2
          refine ⟨hmem1, fun r2 hr2 => ?_⟩
          rcases List.mem_cons.mp hr2 with he | htl
          · subst he; exact hsat1
          · have hs := hsat2 r2 htl
            rw [hc1] at hs
            exact hs

/-- C2 (corrected): when apply_rules finishes WITHOUT error, every
surviving row satisfies every rule of the list (each comparison on that
row's cell evaluates to true); and when the FIRST rule has a recognised
condition and names a column absent from the table, the call returns
the table unchanged (and appends no log entry).  The claim's original
second half — ANY rule on a missing column returns T — fails, because a
missing-column error in a later rule keeps the filtering already done
(see the counterexample). -/
theorem apply_rules_rows_satisfy (df : DataFrame) (rules : List Rule)
    (log : List LogEntry) :
    (∀ r rs, rules = r :: rs →
       (r.condition = "greater_than" ∨ r.condition = "less_than" ∨
         r.condition = "equals") →
       r.column ∉ df.cols →
       (apply_rules df rules log).df = df ∧
       (apply_rules df rules log).log = log) ∧
    ((apply_rules df rules log).err = none →
       ∀ lr ∈ (apply_rules df rules log).df.rows, ∀ r ∈ rules,
         ruleSatB df.cols lr.2 r = true) := by
  constructor
  · intro r rs hrs hrec hmem
    subst hrs
    have hidx : df.cols.findIdx? (fun s => s == r.column) = none :=
      List.findIdx?_eq_none_iff.mpr (fun x hx => by
        rw [beq_eq_false_iff_ne]
        exact fun hxc => hmem (hxc ▸ hx))
    have hstep : applyRuleStep df r
        = Except.error ("KeyError: " ++ r.column) := by
      rcases hrec with h1 | h1 | h1
      · rw [applyRuleStep, if_pos h1, filterBy, hidx]
      · rw [applyRuleStep, if_neg (by rw [h1]; decide), if_pos h1, filterBy, hidx]
      · rw [applyRuleStep, if_neg (by rw [h1]; decide),
            if_neg (by rw [h1]; decide), if_pos h1, filterBy, hidx]
    simp [apply_rules, batchLoop, hstep]
  · intro herr
    cases hloop : batchLoop applyRuleStep df rules with
    | mk df2 oerr =>
        cases oerr with
        | some e =>
            simp only [apply_rules, hloop] at herr
            exact (Option.noConfusion herr)
        | none =>
            intro lr hm r hr
            simp only [apply_rules, hloop] at hm
            obtain ⟨_, hall⟩ := batchLoop_rules_ok rules df df2 hloop
            obtain ⟨_, hsat⟩ := hall lr hm
            exact hsat r hr

/-- Witness for C2's corrected statement, first half: a single
greater_than rule on a missing column leaves the concrete table
untouched and logs nothing. -/
theorem apply_rules_rows_satisfy_witness :
    (("greater_than" = "greater_than" ∨ "greater_than" = "less_than" ∨
        "greater_than" = "equals") ∧ "B" ∉ ["A"]) ∧
    ((apply_rules ⟨["A"], [(0, [Value.vInt 3])]⟩
        [⟨"B", "greater_than", Value.vInt 7⟩] []).df
        = ⟨["A"], [(0, [Value.vInt 3])]⟩ ∧
     (apply_rules ⟨["A"], [(0, [Value.vInt 3])]⟩
        [⟨"B", "greater_than", Value.vInt 7⟩] []).log = []) :=
  ⟨⟨Or.inl rfl, by decide⟩,
   (apply_rules_rows_satisfy ⟨["A"], [(0, [Value.vInt 3])]⟩
      [⟨"B", "greater_than", Value.vInt 7⟩] []).1
     ⟨"B", "greater_than", Value.vInt 7⟩ [] rfl (Or.inl rfl) (by decide)⟩

/-- Counterexample to C2 as stated: the rule list contains a rule on
column "B", absent from the table, yet apply_rules does not return the
input table — the first rule's filtering is retained. -/
theorem apply_rules_missing_column_cex :
    ((⟨"B", "greater_than", Value.vInt 0⟩ : Rule)
        ∈ [(⟨"A", "greater_than", Value.vInt 50⟩ : Rule),
           ⟨"B", "greater_than", Value.vInt 0⟩]) ∧
    "B" ∉ (⟨["A"], [(0, [Value.vInt 1]), (1, [Value.vInt 99])]⟩ : DataFrame).cols ∧
    (apply_rules ⟨["A"], [(0, [Value.vInt 1]), (1, [Value.vInt 99])]⟩
        [⟨"A", "greater_than", Value.vInt 50⟩, ⟨"B", "greater_than", Value.vInt 0⟩]
        []).df
      ≠ ⟨["A"], [(0, [Value.vInt 1]), (1, [Value.vInt 99])]⟩ :=
  ⟨by decide, by decide, by decide⟩

/-! ## C4: what "delete" removes -/

theorem filter_labels_eraseIdx :
    ∀ (rows : List (Nat × List Value)) (s k : Nat),
      rows.map Prod.fst = List.range' s rows.length → k < rows.length →
      rows.filter (fun lr => lr.1 != s + k) = rows.eraseIdx k := by
  intro rows
  induction rows with
  | nil => intro s k _ hk; simp at hk
  | cons lr rs ih =>
      intro s k hmap hk
      simp only [List.map_cons, List.length_cons, List.range'_succ] at hmap
      injection hmap with h1 h2
      cases k with
      | zero =>
          rw [List.filter_cons]
          have hbe : (lr.1 != s + 0) = false := by
            simp [h1]
          rw [hbe]
          simp only [Bool.false_eq_true, if_false, List.eraseIdx_cons_zero]
          rw [List.filter_eq_self.mpr]
          intro a ha
          have hmem : a.1 ∈ List.map Prod.fst rs := List.mem_map_of_mem Prod.fst ha
          rw [h2] at hmem
          have hge := (List.mem_range'_1.mp hmem).1
          rw [bne_iff_ne]
          omega
      | succ k2 =>
          rw [List.filter_cons]
          have hbe : (lr.1 != s + (k2 + 1)) = true := by
            rw [bne_iff_ne]
            omega
          rw [hbe]
          simp only [if_true, List.eraseIdx_cons_succ]
          congr 1
          have hs : s + (k2 + 1) = (s + 1) + k2 := by omega
          rw [hs]
          exact ih (s + 1) k2 h2 (by simpa using hk)

theorem contains_label :
    ∀ (rows : List (Nat × List Value)) (s k : Nat),
      rows.map Prod.fst = List.range' s rows.length → k < rows.length →
      (rows.map Prod.fst).contains (s + k) = true := by
  intro rows s k hmap hk
  rw [hmap]
  have hmem : s + k ∈ List.range' s rows.length :=
    List.mem_range'_1.mpr ⟨Nat.le_add_right s k, by omega⟩
  exact List.elem_eq_true_of_mem hmem

/-- C4 (corrected): "delete" does not remove the row at the given
position of the current table — df.drop removes the rows whose LABEL
equals the index.  On a table whose labels still coincide with the
positions 0..n-1 (the initial RangeIndex), an in-range delete does
remove the row at that position, and an absent or out-of-range index is
silently skipped; but after an earlier delete the labels no longer
match the positions, so the dropped row is selected by label (see the
counterexample), and an in-range index matching no surviving label
raises KeyError instead of deleting. -/
theorem delete_is_by_label (df : DataFrame) (i : Int) (log : List LogEntry)
    (hlab : df.rows.map Prod.fst = List.range df.rows.length) :
    ((0 ≤ i ∧ i < (df.rows.length : Int)) →
      add_or_delete_rows df [⟨"delete", [], some i⟩] log
        = ⟨⟨df.cols, df.rows.eraseIdx i.toNat⟩,
           log ++ [LogEntry.addOrDeleteRows [⟨"delete", [], some i⟩]
                     (df.rows.eraseIdx i.toNat).length], none⟩) ∧
    (¬(0 ≤ i ∧ i < (df.rows.length : Int)) →
      add_or_delete_rows df [⟨"delete", [], some i⟩] log
        = ⟨df, log ++ [LogEntry.addOrDeleteRows [⟨"delete", [], some i⟩]
                         df.rows.length], none⟩) := by
  have hrange : df.rows.map Prod.fst = List.range' 0 df.rows.length := by
    rw [hlab, List.range_eq_range']
  have hstep : opStep df ⟨"delete", [], some i⟩
      = (if 0 ≤ i ∧ i < (df.rows.length : Int) then
          (if (df.rows.map Prod.fst).contains i.toNat then
            Except.ok ⟨df.cols, df.rows.filter (fun lr => lr.1 != i.toNat)⟩
          else Except.error "KeyError: label not found")
        else Except.ok df) := by
    rw [opStep]
    rw [if_neg (by decide : ¬("delete" = "add"))]
    rw [if_pos (rfl : "delete" = "delete")]
  constructor
  · intro hin
    have hkn : i.toNat < df.rows.length := by omega
    have hcont : (df.rows.map Prod.fst).contains i.toNat = true := by
      have hc := contains_label df.rows 0 i.toNat hrange hkn
      simpa using hc
    have hfil : df.rows.filter (fun lr => lr.1 != i.toNat)
        = df.rows.eraseIdx i.toNat := by
      have hf := filter_labels_eraseIdx df.rows 0 i.toNat hrange hkn
      simpa using hf
    have hstep2 : opStep df ⟨"delete", [], some i⟩
        = Except.ok ⟨df.cols, df.rows.eraseIdx i.toNat⟩ := by
      rw [hstep, if_pos hin, if_pos hcont, hfil]
    simp [add_or_delete_rows, batchLoop, hstep2]
  · intro hout
    have hstep2 : opStep df ⟨"delete", [], some i⟩ = Except.ok df := by
      rw [hstep, if_neg hout]
    simp [add_or_delete_rows, batchLoop, hstep2]

/-- Witness for C4's corrected statement: on a freshly indexed 3-row
table a single delete at index 1 removes the positional row 1. -/
theorem delete_is_by_label_witness :
    ((⟨["A"], [(0, [Value.vInt 10]), (1, [Value.vInt 20]), (2, [Value.vInt 30])]⟩
        : DataFrame).rows.map Prod.fst = List.range 3 ∧
      ((0 : Int) ≤ 1 ∧ (1 : Int) < 3)) ∧
    add_or_delete_rows
        ⟨["A"], [(0, [Value.vInt 10]), (1, [Value.vInt 20]), (2, [Value.vInt 30])]⟩
        [⟨"delete", [], some 1⟩] []
      = ⟨⟨["A"], [(0, [Value.vInt 10]), (2, [Value.vInt 30])]⟩,
         [] ++ [LogEntry.addOrDeleteRows [⟨"delete", [], some 1⟩] 2], none⟩ :=
  ⟨⟨by decide, by decide⟩,
   (delete_is_by_label
      ⟨["A"], [(0, [Value.vInt 10]), (1, [Value.vInt 20]), (2, [Value.vInt 30])]⟩
      1 [] (by decide)).1 (by decide)⟩

/-- Counterexample to C4 as stated: ops = [delete 0, delete 1] on a
3-row table.  Positional semantics would leave the middle row; the code
drops labels 0 and 1 and leaves the LAST row, with no error raised. -/
theorem delete_positional_cex :
    (add_or_delete_rows
        ⟨["A"], [(0, [Value.vInt 10]), (1, [Value.vInt 20]), (2, [Value.vInt 30])]⟩
        [⟨"delete", [], some 0⟩, ⟨"delete", [], some 1⟩] []).err = none ∧
    (add_or_delete_rows
        ⟨["A"], [(0, [Value.vInt 10]), (1, [Value.vInt 20]), (2, [Value.vInt 30])]⟩
        [⟨"delete", [], some 0⟩, ⟨"delete", [], some 1⟩] []).df.rows.map Prod.snd
      = [[Value.vInt 30]] ∧
    positionalDeletes [[Value.vInt 10], [Value.vInt 20], [Value.vInt 30]]
        [⟨"delete", [], some 0⟩, ⟨"delete", [], some 1⟩]
      = [[Value.vInt 20]] ∧
    (add_or_delete_rows
        ⟨["A"], [(0, [Value.vInt 10]), (1, [Value.vInt 20]), (2, [Value.vInt 30])]⟩
        [⟨"delete", [], some 0⟩, ⟨"delete", [], some 1⟩] []).df.rows.map Prod.snd
      ≠ positionalDeletes [[Value.vInt 10], [Value.vInt 20], [Value.vInt 30]]
          [⟨"delete", [], some 0⟩, ⟨"delete", [], some 1⟩] :=
  ⟨by decide, by decide, by decide, by decide⟩

/-! ## C6: forward fill -/

theorem ffillStep_getD :
    ∀ (j : Nat) (carry row : List Value), j < carry.length →
      row.length = carry.length →
      (ffillStep carry row).getD j Value.vNull
        = (if row.getD j Value.vNull = Value.vNull
           then carry.getD j Value.vNull else row.getD j Value.vNull) := by
  intro j
  induction j with
  | zero =>
      intro carry row hj hl
      cases carry with
      | nil => simp at hj
      | cons c cs =>
          cases row with
          | nil => simp at hl
          | cons r rs => simp [ffillStep]
  | succ n ih =>
      intro carry row hj hl
      cases carry with
      | nil => simp at hj
      | cons c cs =>
          cases row with
          | nil => simp at hl
          | cons r rs =>
              simp only [ffillStep, List.zipWith_cons_cons, List.getD_cons_succ]
              exact ih cs rs (by simpa using hj) (by simpa using hl)

theorem ffillRows_map_fst :
    ∀ (rows : List (Nat × List Value)) (carry : List Value),
      (ffillRows carry rows).map Prod.fst = rows.map Prod.fst := by
  intro rows
  induction rows with
  | nil => intro carry; rfl
  | cons lr rs ih =>
      intro carry
      simp only [ffillRows, List.map_cons, ih]

theorem ffillRows_cell :
    ∀ (rows : List (Nat × List Value)) (carry : List Value) (i j : Nat),
      (∀ lr ∈ rows, lr.2.length = carry.length) →
      i < rows.length → j < carry.length →
      ((ffillRows carry rows).getD i (0, [])).2.getD j Value.vNull
        = (if ((rows.getD i (0, [])).2).getD j Value.vNull = Value.vNull
           then lastNN (carry.getD j Value.vNull)
                  ((rows.take i).map (fun lr => lr.2.getD j Value.vNull))
           else ((rows.getD i (0, [])).2).getD j Value.vNull) := by
  intro rows
  induction rows with
  | nil => intro carry i j _ hi _; simp at hi
  | cons lr rs ih =>
      intro carry i j hw hi hj
      have hlen : lr.2.length = carry.length := hw lr (List.mem_cons_self _ _)
      cases i with
      | zero =>
          simp only [ffillRows, List.getD_cons_zero, List.take_zero,
            List.map_nil]
          rw [ffillStep_getD j carry lr.2 hj hlen]
          rfl
      | succ n =>
          have hlen2 : (ffillStep carry lr.2).length = carry.length := by
            simp [ffillStep, List.length_zipWith, hlen]
          have hw2 : ∀ x ∈ rs, x.2.length = (ffillStep carry lr.2).length := by
            intro x hx
            rw [hlen2]
            exact hw x (List.mem_cons_of_mem _ hx)
          have hi2 : n < rs.length := by simpa using hi
          have hj2 : j < (ffillStep carry lr.2).length := by
            rw [hlen2]; exact hj
          simp only [ffillRows, List.getD_cons_succ, List.take_succ_cons,
            List.map_cons]
          rw [ih (ffillStep carry lr.2) n j hw2 hi2 hj2]
          rw [ffillStep_getD j carry lr.2 hj hlen]
          rfl

theorem getD_const_null :
    ∀ (l : List String) (j : Nat),
      (l.map (fun _ => Value.vNull)).getD j Value.vNull = Value.vNull := by
  intro l
  induction l with
  | nil => intro j; rfl
  | cons a as ih =>
      intro j
      cases j with
      | zero => rfl
      | succ n => exact ih n

/-- C6 (confirmed): fill_missing_values with method "ffill" keeps the
columns, the row count and the labels, and rewrites each cell
independently per column: a null cell receives the nearest preceding
non-null value of its column (ffillExpected, which is null when no
preceding non-null exists, so leading nulls stay null), and a non-null
cell is untouched. -/
theorem fill_missing_ffill (df : DataFrame) (log : List LogEntry) (i j : Nat)
    (hw : ∀ lr ∈ df.rows, lr.2.length = df.cols.length)
    (hi : i < df.rows.length) (hj : j < df.cols.length) :
    (fill_missing_values df "ffill" none log).df.cols = df.cols ∧
    (fill_missing_values df "ffill" none log).df.rows.map Prod.fst
      = df.rows.map Prod.fst ∧
    cellAt (fill_missing_values df "ffill" none log).df i j
      = (if cellAt df i j = Value.vNull then ffillExpected df i j
         else cellAt df i j) := by
  have hdf : (fill_missing_values df "ffill" none log).df = ffillDF df := rfl
  rw [hdf]
  refine ⟨rfl, ffillRows_map_fst df.rows _, ?_⟩
  have hlenc : (df.cols.map (fun _ => Value.vNull)).length = df.cols.length :=
    List.length_map df.cols _
  have hw2 : ∀ lr ∈ df.rows,
      lr.2.length = (df.cols.map (fun _ => Value.vNull)).length := by
    intro lr hm
    rw [hlenc]
    exact hw lr hm
  have hj2 : j < (df.cols.map (fun _ => Value.vNull)).length := by
    rw [hlenc]; exact hj
  have hc := ffillRows_cell df.rows (df.cols.map (fun _ => Value.vNull))
    i j hw2 hi hj2
  rw [getD_const_null df.cols j] at hc
  exact hc

/-- Witness for C6 on a concrete 3-row, 2-column table: the trailing
null of column 0 receives the value 5 from row 1, everything else as
predicted. -/
theorem fill_missing_ffill_witness :
    ((∀ lr ∈ (⟨["A", "B"],
        [(0, [Value.vNull, Value.vInt 1]), (1, [Value.vInt 5, Value.vNull]),
         (2, [Value.vNull, Value.vNull])]⟩ : DataFrame).rows,
        lr.2.length = 2) ∧ 2 < 3 ∧ 0 < 2) ∧
    ((fill_missing_values ⟨["A", "B"],
        [(0, [Value.vNull, Value.vInt 1]), (1, [Value.vInt 5, Value.vNull]),
         (2, [Value.vNull, Value.vNull])]⟩ "ffill" none []).df.cols = ["A", "B"] ∧
     (fill_missing_values ⟨["A", "B"],
        [(0, [Value.vNull, Value.vInt 1]), (1, [Value.vInt 5, Value.vNull]),
         (2, [Value.vNull, Value.vNull])]⟩ "ffill" none []).df.rows.map Prod.fst
        = [0, 1, 2] ∧
     cellAt (fill_missing_values ⟨["A", "B"],
        [(0, [Value.vNull, Value.vInt 1]), (1, [Value.vInt 5, Value.vNull]),
         (2, [Value.vNull, Value.vNull])]⟩ "ffill" none []).df 2 0
        = (if cellAt (⟨["A", "B"],
            [(0, [Value.vNull, Value.vInt 1]), (1, [Value.vInt 5, Value.vNull]),
             (2, [Value.vNull, Value.vNull])]⟩ : DataFrame) 2 0 = Value.vNull
           then ffillExpected (⟨["A", "B"],
            [(0, [Value.vNull, Value.vInt 1]), (1, [Value.vInt 5, Value.vNull]),
             (2, [Value.vNull, Value.vNull])]⟩ : DataFrame) 2 0
           else cellAt (⟨["A", "B"],
            [(0, [Value.vNull, Value.vInt 1]), (1, [Value.vInt 5, Value.vNull]),
             (2, [Value.vNull, Value.vNull])]⟩ : DataFrame) 2 0)) :=
  ⟨⟨by decide, by decide, by decide⟩,
   fill_missing_ffill ⟨["A", "B"],
      [(0, [Value.vNull, Value.vInt 1]), (1, [Value.vInt 5, Value.vNull]),
       (2, [Value.vNull, Value.vNull])]⟩ [] 2 0 (by decide) (by decide) (by decide)⟩

end App
